import Mathlib

/-!
Verification of the recall-ai-backend core: a shallow embedding in Lean 4 of
the AI-provider adapter logic (`src/services/openai.service.ts`,
`src/services/vertex-ai.service.ts`), the AI configuration and factory
(`src/config/ai.config.ts`, `src/services/ai.service.ts`), the daily
rate-limit accounting (`src/utils/vertex-ai-credentials.ts`, rate-limit part),
and the AI flashcard route handlers (`src/routes/flashcards-ai.ts`).

JavaScript strings are modelled as `List Char`, machine numbers used for
counting as `Nat`/`Int`, timestamps as milliseconds-since-epoch (`Nat`), the
relational store as explicit lists of rows, and external LLM HTTP calls as
function parameters returning `Option`/`Except` values.
-/

/-! ## JSON values and `JSON.parse`

`JSON.parse` is a platform primitive; it is modelled here by an executable
recursive-descent parser over a JSON value type (integers for numbers; the
string/array/object/literal forms of JSON). The parser skips JSON whitespace
between tokens and requires the whole (trimmed) input to be consumed,
mirroring `JSON.parse`'s tolerance for surrounding whitespace.
-/

/-- JSON values: `null`, booleans, (integer) numbers, strings, arrays,
objects. Strings are `List Char` to match the character-list embedding. -/
inductive Json where
  | null : Json
  | bool : Bool → Json
  | num : Int → Json
  | str : List Char → Json
  | arr : List Json → Json
  | obj : List (List Char × Json) → Json
deriving Repr

/-- The backtick character (written via its code point, 96). -/
def bq : Char := Char.ofNat 96

/-- JSON/JS whitespace as treated by `String.prototype.trim` and
`JSON.parse`: space, newline, tab, carriage return. -/
def isWs (c : Char) : Bool :=
  c == ' ' || c == '\n' || c == '\t' || c == '\r'

/-- Skip leading whitespace. -/
def skipWs (cs : List Char) : List Char := cs.dropWhile isWs

/-- Model of `String.prototype.trim`: drop leading and trailing whitespace. -/
def jsTrim (cs : List Char) : List Char :=
  (((cs.dropWhile isWs).reverse).dropWhile isWs).reverse

/-- Decode one character following a backslash in a JSON string literal. -/
def escChar (c : Char) : Char :=
  if c = 'n' then '\n' else if c = 't' then '\t' else if c = 'r' then '\r' else c

/-- Parse the body of a JSON string literal (the opening quote already
consumed); returns the decoded characters and the remaining input. -/
def parseStrBody : List Char → Option (List Char × List Char)
  | [] => none
  | '"' :: rest => some ([], rest)
  | '\\' :: c :: rest =>
    (parseStrBody rest).map (fun p => (escChar c :: p.1, p.2))
  | c :: rest =>
    (parseStrBody rest).map (fun p => (c :: p.1, p.2))

/-- Digits of a decimal numeral to a natural number. -/
def digitsToNat (ds : List Char) : Nat :=
  ds.foldl (fun a c => 10 * a + (c.toNat - 48)) 0

/-- Parse a JSON (integer) number: optional minus sign, then digits. -/
def parseNum (cs : List Char) : Option (Json × List Char) :=
  match cs with
  | '-' :: rest =>
    let p := rest.span Char.isDigit
    if p.1.isEmpty then none else some (Json.num (-(digitsToNat p.1 : Int)), p.2)
  | _ =>
    let p := cs.span Char.isDigit
    if p.1.isEmpty then none else some (Json.num (digitsToNat p.1 : Int), p.2)

mutual

/-- Parse one JSON value at the head of the input (after leading whitespace);
`fuel` bounds the recursion depth and is at least the input length at the
top-level call, which suffices because every recursive call consumes input. -/
def parseVal : Nat → List Char → Option (Json × List Char)
  | 0, _ => none
  | fuel + 1, cs =>
    match skipWs cs with
    | 'n' :: 'u' :: 'l' :: 'l' :: rest => some (Json.null, rest)
    | 't' :: 'r' :: 'u' :: 'e' :: rest => some (Json.bool true, rest)
    | 'f' :: 'a' :: 'l' :: 's' :: 'e' :: rest => some (Json.bool false, rest)
    | '"' :: rest => (parseStrBody rest).map (fun p => (Json.str p.1, p.2))
    | '[' :: rest =>
      (match skipWs rest with
       | ']' :: rest2 => some (Json.arr [], rest2)
       | _ => (parseArrItems fuel rest).map (fun p => (Json.arr p.1, p.2)))
    | '\x7b' :: rest =>
      (match skipWs rest with
       | '\x7d' :: rest2 => some (Json.obj [], rest2)
       | _ => (parseObjItems fuel rest).map (fun p => (Json.obj p.1, p.2)))
    | cs2 => parseNum cs2

/-- Parse the comma-separated items of a non-empty JSON array, up to and
including the closing bracket. -/
def parseArrItems : Nat → List Char → Option (List Json × List Char)
  | 0, _ => none
  | fuel + 1, cs =>
    match parseVal fuel cs with
    | none => none
    | some (v, rest) =>
      match skipWs rest with
      | ',' :: rest2 =>
        (match parseArrItems fuel rest2 with
         | some (vs, r) => some (v :: vs, r)
         | none => none)
      | ']' :: rest2 => some ([v], rest2)
      | _ => none

/-- Parse the comma-separated members of a non-empty JSON object, up to and
including the closing brace. -/
def parseObjItems : Nat → List Char → Option (List (List Char × Json) × List Char)
  | 0, _ => none
  | fuel + 1, cs =>
    match skipWs cs with
    | '"' :: rest =>
      (match parseStrBody rest with
       | none => none
       | some (k, rest2) =>
         match skipWs rest2 with
         | ':' :: rest3 =>
           (match parseVal fuel rest3 with
            | none => none
            | some (v, rest4) =>
              match skipWs rest4 with
              | ',' :: rest5 =>
                (match parseObjItems fuel rest5 with
                 | some (kvs, r) => some ((k, v) :: kvs, r)
                 | none => none)
              | '\x7d' :: rest5 => some ([(k, v)], rest5)
              | _ => none)
         | _ => none)
    | _ => none

end

/-- Model of `JSON.parse`: trim the input, parse one value, succeed only if
the whole input was consumed. -/
def jsonParse (cs : List Char) : Option Json :=
  let t := jsTrim cs
  match parseVal (t.length + 1) t with
  | some (v, rest) => if rest.isEmpty then some v else none
  | none => none

example : jsonParse "[1, -2]".toList = some (Json.arr [Json.num 1, Json.num (-2)]) := rfl
example : jsonParse " null ".toList = some Json.null := rfl
example : jsonParse "\x7b\"a\": [true]\x7d".toList
    = some (Json.obj [("a".toList, Json.arr [Json.bool true])]) := rfl
example : jsonParse "[1".toList = none := rfl
example : jsonParse "javascript".toList = none := rfl

/-! ## Markdown code-fence stripping (`OpenAIService.extractJSON` and the
inline equivalent in `VertexAIService.generateFlashcards`)

The source (src/services/openai.service.ts, lines 72-83):
```
let jsonText = text.trim();
if (jsonText.startsWith('```json')) {
  jsonText = jsonText.replace(/```json\n?/g, '').replace(/```\n?$/g, '');
} else if (jsonText.startsWith('```')) {
  jsonText = jsonText.replace(/```\n?/g, '');
}
return JSON.parse(jsonText);
```
`replace(/PAT\n?/g, '')` deletes every non-overlapping occurrence of `PAT`
together with an immediately following newline if present, scanning left to
right. `replace(/```\n?$/g, '')` deletes a trailing ``` ``` ``` optionally
followed by a final newline (JavaScript `$` without the `m` flag matches only
at the very end of the input).
-/

/-- The pattern ``` ``` ``` of the bare-fence regex. -/
def fence3 : List Char := [bq, bq, bq]

/-- The pattern ``` ```json ``` of the tagged-fence regex. -/
def fence7 : List Char := fence3 ++ "json".toList

/-- Drop a single leading newline if present (the `\n?` of the regexes). -/
def dropNl : List Char → List Char
  | '\n' :: rest => rest
  | cs => cs

/-- One left-to-right pass of `replace(/PAT\n?/g, '')`: at each position, if
`pat` matches, delete it (and one following newline) and continue after the
match; otherwise keep the character. `fuel` bounds the recursion; `cs.length`
suffices since every step consumes at least one character. -/
def removeAllOptFuel (pat : List Char) : Nat → List Char → List Char
  | _, [] => []
  | 0, cs => cs
  | fuel + 1, c :: rest =>
    if pat.isPrefixOf (c :: rest) then
      removeAllOptFuel pat fuel (dropNl ((c :: rest).drop pat.length))
    else
      c :: removeAllOptFuel pat fuel rest

/-- Model of `text.replace(/PAT\n?/g, '')` for a nonempty pattern `PAT`. -/
def removeAllOpt (pat cs : List Char) : List Char :=
  removeAllOptFuel pat cs.length cs

/-- Model of `text.replace(/```\n?$/g, '')`: delete a trailing ``` ``` ```
together with an immediately following final newline if present. -/
def stripFenceEnd (cs : List Char) : List Char :=
  let r := cs.reverse
  if r.take 4 = '\n' :: fence3 then (r.drop 4).reverse
  else if r.take 3 = fence3 then (r.drop 3).reverse
  else cs

/-- The string-level part of `extractJSON`: trim, then strip markdown code
fences according to which prefix the trimmed text starts with. -/
def extractJSONText (cs : List Char) : List Char :=
  let t := jsTrim cs
  if fence7.isPrefixOf t then stripFenceEnd (removeAllOpt fence7 t)
  else if fence3.isPrefixOf t then removeAllOpt fence3 t
  else t

/-- Model of `OpenAIService.extractJSON` (the same logic is inlined in
`VertexAIService.generateFlashcards` and `generateStudyModule`): strip fences,
then `JSON.parse`. -/
def extractJSON (cs : List Char) : Option Json :=
  jsonParse (extractJSONText cs)

/-- A payload wrapped in a bare leading/trailing markdown fence. -/
def fenceWrapBare (s : List Char) : List Char :=
  fence3 ++ '\n' :: (s ++ '\n' :: fence3)

/-- A payload wrapped in a ```` ```json ````-tagged leading/trailing markdown
fence. -/
def fenceWrapJson (s : List Char) : List Char :=
  fence7 ++ '\n' :: (s ++ '\n' :: fence3)

example : extractJSONText (fenceWrapBare "[1]".toList) = "[1]\n".toList := rfl
example : extractJSONText (fenceWrapJson "[1]".toList) = "[1]\n".toList := rfl
example : extractJSON (fenceWrapJson "[1, 2]".toList) = some (Json.arr [Json.num 1, Json.num 2]) := rfl
example : extractJSON "  [1]  ".toList = some (Json.arr [Json.num 1]) := rfl

/-! Supporting lemmas about trimming and fence stripping. -/

lemma isWs_bq : isWs bq = false := rfl

lemma isWs_nl : isWs '\n' = true := rfl

lemma jsTrim_cons_of_ws {c : Char} (h : isWs c = true) (l : List Char) :
    jsTrim (c :: l) = jsTrim l := by
  simp [jsTrim, List.dropWhile_cons, h]

/-- Trimming a string whose first and last characters are not whitespace is
the identity. -/
lemma jsTrim_sandwich {a b : Char} (ha : isWs a = false) (hb : isWs b = false)
    (xs : List Char) : jsTrim (a :: (xs ++ [b])) = a :: (xs ++ [b]) := by
  simp [jsTrim, List.dropWhile_cons, ha, hb]

/-- Trimming ignores a trailing newline. -/
lemma jsTrim_append_nl (s : List Char) : jsTrim (s ++ ['\n']) = jsTrim s := by
  induction s with
  | nil => rfl
  | cons c s' ih =>
    by_cases hc : isWs c = true
    · rw [List.cons_append, jsTrim_cons_of_ws hc, jsTrim_cons_of_ws hc, ih]
    · rw [Bool.not_eq_true] at hc
      simp [jsTrim, List.dropWhile_cons, hc, isWs_nl]

/-- `JSON.parse` ignores a trailing newline. -/
lemma jsonParse_append_nl (s : List Char) : jsonParse (s ++ ['\n']) = jsonParse s := by
  unfold jsonParse
  rw [jsTrim_append_nl]

/-- If the fence pattern is a prefix of `c :: (s' ++ '\n' :: tail)`, it is
already a prefix of `c :: s'`: the three backticks cannot straddle into the
newline-led suffix. -/
lemma fence3_prefix_shift {c : Char} {s' tail : List Char}
    (h : fence3 <+: c :: (s' ++ '\n' :: tail)) : fence3 <+: c :: s' := by
  obtain ⟨t, ht⟩ := h
  have hbq : ¬ (('\n' : Char) = bq) := by decide
  match s' with
  | [] =>
    simp only [fence3, List.cons_append, List.nil_append, List.cons.injEq] at ht
    exact absurd ht.2.1.symm hbq
  | [a] =>
    simp only [fence3, List.cons_append, List.nil_append, List.cons.injEq] at ht
    exact absurd ht.2.2.1.symm hbq
  | a :: b :: s'' =>
    simp only [fence3, List.cons_append, List.nil_append, List.cons.injEq] at ht
    obtain ⟨h1, h2, h3, -⟩ := ht
    subst h1; subst h2; subst h3
    exact ⟨s'', by simp [fence3]⟩

/-- Scanning `s ++ '\n' :: tail` with a pattern that starts with the fence
leaves `s` untouched when `s` does not contain ``` ``` ```; the scan then
continues on the suffix with correspondingly reduced fuel. -/
lemma removeAllOptFuel_append (pat tail : List Char) (hpat : fence3 <+: pat) :
    ∀ (s : List Char) (fuel : Nat), ¬ fence3 <:+: s →
      removeAllOptFuel pat (s.length + fuel) (s ++ '\n' :: tail)
        = s ++ removeAllOptFuel pat fuel ('\n' :: tail) := by
  intro s
  induction s with
  | nil => intro fuel _; simp
  | cons c s' ih =>
    intro fuel hs
    have hlen : (c :: s').length + fuel = (s'.length + fuel) + 1 := by
      simp [List.length_cons]; omega
    have hnotpre : ¬ (pat.isPrefixOf (c :: (s' ++ '\n' :: tail)) = true) := by
      intro hpre
      have h2 : fence3 <+: c :: (s' ++ '\n' :: tail) :=
        hpat.trans (List.isPrefixOf_iff_prefix.mp hpre)
      exact hs (fence3_prefix_shift h2).isInfix
    rw [List.cons_append, hlen]
    simp only [removeAllOptFuel]
    rw [if_neg hnotpre, ih fuel (fun hinf => hs (List.infix_cons hinf)),
      List.cons_append]

/-- A bare-fenced clean payload: the global fence deletion removes both
fences and leaves `payload ++ newline`. -/
lemma removeFence_bare (s : List Char) (hs : ¬ fence3 <:+: s) :
    removeAllOpt fence3 (fenceWrapBare s) = s ++ ['\n'] := by
  have hshape : fenceWrapBare s = bq :: bq :: bq :: '\n' :: (s ++ '\n' :: fence3) := by
    simp [fenceWrapBare, fence3]
  have hlen : (fenceWrapBare s).length = (s.length + 7) + 1 := by
    rw [hshape]; simp [fence3]
  have hpre : fence3.isPrefixOf (bq :: bq :: bq :: '\n' :: (s ++ '\n' :: fence3)) = true := by
    simp [fence3, List.isPrefixOf]
  rw [removeAllOpt, hlen, hshape]
  simp only [removeAllOptFuel]
  rw [if_pos hpre]
  have hstep : dropNl ((bq :: bq :: bq :: '\n' :: (s ++ '\n' :: fence3)).drop fence3.length)
      = s ++ '\n' :: fence3 := rfl
  rw [hstep, removeAllOptFuel_append fence3 fence3 List.prefix_rfl s 7 hs]
  have htail : removeAllOptFuel fence3 7 ('\n' :: fence3) = ['\n'] := rfl
  rw [htail]

/-- Deleting the trailing fence from `s ++ '\n' :: fence3` leaves
`s ++ newline`. -/
lemma stripFenceEnd_append_fence (s : List Char) :
    stripFenceEnd (s ++ '\n' :: fence3) = s ++ ['\n'] := by
  have hr : (s ++ '\n' :: fence3).reverse = bq :: bq :: bq :: '\n' :: s.reverse := by
    simp [fence3]
  simp only [stripFenceEnd]
  rw [hr]
  have h4 : List.take 4 (bq :: bq :: bq :: '\n' :: s.reverse) = [bq, bq, bq, '\n'] := rfl
  have h3 : List.take 3 (bq :: bq :: bq :: '\n' :: s.reverse) = [bq, bq, bq] := rfl
  rw [h4, h3, if_neg (by decide), if_pos (by rw [fence3])]
  have hd : List.drop 3 (bq :: bq :: bq :: '\n' :: s.reverse) = '\n' :: s.reverse := rfl
  rw [hd]
  simp

/-- A json-tagged fenced clean payload: the tagged fence deletion plus the
end-strip leave `payload ++ newline`. -/
lemma removeFence_json (s : List Char) (hs : ¬ fence3 <:+: s) :
    stripFenceEnd (removeAllOpt fence7 (fenceWrapJson s)) = s ++ ['\n'] := by
  have hjson : "json".toList = ['j', 's', 'o', 'n'] := rfl
  have hshape : fenceWrapJson s
      = bq :: bq :: bq :: 'j' :: 's' :: 'o' :: 'n' :: '\n' :: (s ++ '\n' :: fence3) := by
    simp [fenceWrapJson, fence7, fence3, hjson]
  have hlen : (fenceWrapJson s).length = (s.length + 11) + 1 := by
    rw [hshape]; simp [fence3]
  have hpre : fence7.isPrefixOf
      (bq :: bq :: bq :: 'j' :: 's' :: 'o' :: 'n' :: '\n' :: (s ++ '\n' :: fence3)) = true := by
    simp [fence7, fence3, hjson, List.isPrefixOf]
  rw [removeAllOpt, hlen, hshape]
  simp only [removeAllOptFuel]
  rw [if_pos hpre]
  have hstep : dropNl
      ((bq :: bq :: bq :: 'j' :: 's' :: 'o' :: 'n' :: '\n' :: (s ++ '\n' :: fence3)).drop
        fence7.length) = s ++ '\n' :: fence3 := rfl
  rw [hstep,
    removeAllOptFuel_append fence7 fence3 ⟨"json".toList, rfl⟩ s 11 hs]
  have htail : removeAllOptFuel fence7 11 ('\n' :: fence3) = '\n' :: fence3 := rfl
  rw [htail, stripFenceEnd_append_fence]

lemma extractJSONText_bare (s : List Char) (hs : ¬ fence3 <:+: s) :
    extractJSONText (fenceWrapBare s) = s ++ ['\n'] := by
  have hshape : fenceWrapBare s
      = bq :: ((bq :: bq :: '\n' :: (s ++ ['\n', bq, bq])) ++ [bq]) := by
    simp [fenceWrapBare, fence3]
  have htrim : jsTrim (fenceWrapBare s) = fenceWrapBare s := by
    conv_lhs => rw [hshape]
    rw [jsTrim_sandwich isWs_bq isWs_bq, ← hshape]
  have hf7 : fence7.isPrefixOf (fenceWrapBare s) = false := rfl
  have hf3 : fence3.isPrefixOf (fenceWrapBare s) = true := rfl
  simp only [extractJSONText]
  rw [htrim, if_neg (by simp [hf7]), if_pos hf3, removeFence_bare s hs]

lemma extractJSONText_json (s : List Char) (hs : ¬ fence3 <:+: s) :
    extractJSONText (fenceWrapJson s) = s ++ ['\n'] := by
  have hshape : fenceWrapJson s
      = bq :: ((bq :: bq :: 'j' :: 's' :: 'o' :: 'n' :: '\n' :: (s ++ ['\n', bq, bq])) ++ [bq]) := by
    simp [fenceWrapJson, fence7, fence3]
  have htrim : jsTrim (fenceWrapJson s) = fenceWrapJson s := by
    conv_lhs => rw [hshape]
    rw [jsTrim_sandwich isWs_bq isWs_bq, ← hshape]
  have hf7 : fence7.isPrefixOf (fenceWrapJson s) = true := rfl
  simp only [extractJSONText]
  rw [htrim, if_pos hf7, removeFence_json s hs]

/-- C5 (amended): for every JSON payload that does not contain the substring
``` ``` ```, wrapping it in a leading/trailing markdown code fence — bare, or
tagged exactly `json` — and running the adapter's response extraction
recovers the same parsed JSON value as parsing the unfenced payload
directly. -/
theorem extractJSON_fence_roundtrip (s : List Char) (hs : ¬ fence3 <:+: s)
    (_hjson : (jsonParse s).isSome = true) :
    extractJSON (fenceWrapBare s) = jsonParse s
      ∧ extractJSON (fenceWrapJson s) = jsonParse s := by
  refine ⟨?_, ?_⟩
  · rw [extractJSON, extractJSONText_bare s hs, jsonParse_append_nl]
  · rw [extractJSON, extractJSONText_json s hs, jsonParse_append_nl]

/-- Witness for C5: the payload `[1]` survives both fence wrappings. -/
theorem extractJSON_fence_roundtrip_witness :
    extractJSON (fenceWrapBare "[1]".toList) = jsonParse "[1]".toList
      ∧ extractJSON (fenceWrapJson "[1]".toList) = jsonParse "[1]".toList :=
  extractJSON_fence_roundtrip "[1]".toList (by decide) (by rfl)

/-- Observer separating two concrete parse results (length of the single
string element of a singleton array). -/
def obsLen : Option Json → Nat
  | some (Json.arr [Json.str s]) => s.length
  | _ => 0

/-- A JSON payload containing a triple backtick inside a string literal. -/
def payloadBt : List Char := "[\"".toList ++ fence3 ++ "a\"]".toList

/-- Counterexample to C5 as stated: (1) with a language tag other than
`json` (here `js`), extraction fails entirely on a payload that parses on
its own; (2) with a bare fence around a payload containing ``` ``` ``` inside
a JSON string, extraction yields a different parsed value than parsing the
unfenced payload. -/
theorem extractJSON_fence_counterexample :
    (jsonParse "[1]".toList).isSome = true
      ∧ extractJSON (fence3 ++ "js".toList ++ '\n' :: ("[1]".toList ++ '\n' :: fence3))
          ≠ jsonParse "[1]".toList
      ∧ (jsonParse payloadBt).isSome = true
      ∧ extractJSON (fenceWrapBare payloadBt) ≠ jsonParse payloadBt :=
  ⟨rfl, fun h => Option.noConfusion h, rfl,
    fun h => absurd (congrArg obsLen h) (by decide)⟩

/-! Education-level persona prompts.

Source: `OpenAIService.getEducationPrompt` (src/services/openai.service.ts,
lines 88-103) and `VertexAIService.getEducationPrompt` (same file bundle,
lines 491-506). The two lookup tables are character-for-character identical,
so a single embedding covers both.
-/

def promptElementary : String :=
  "You are a child-friendly educational content creator. Create simple, engaging flashcards with basic vocabulary, visual descriptions, and encouraging language suitable for elementary school students (1st-5th grade)."

def promptMiddle : String :=
  "You are an educational content creator for middle school students. Create flashcards that use age-appropriate vocabulary, clear explanations, and encourage critical thinking suitable for 6th-8th grade students."

def promptHighSchool : String :=
  "You are an educational content creator for high school students. Create flashcards that use appropriate academic vocabulary, detailed explanations, and prepare students for standardized tests."

def promptCollege : String :=
  "You are an educational content creator for college students. Create flashcards that use advanced academic vocabulary, complex concepts, and test deep understanding suitable for university-level studies."

def promptCompetitive : String :=
  "You are an expert educational content creator for competitive exam preparation. Create flashcards with precise terminology, comprehensive explanations, and analytical questions suitable for exams like UPSC, GRE, etc."

/-- The `prompts` record of `getEducationPrompt`, as an association list. -/
def educationPrompts : List (String × String) :=
  [("elementary", promptElementary), ("middle", promptMiddle),
   ("high_school", promptHighSchool), ("college", promptCollege),
   ("competitive", promptCompetitive)]

/-- The value JavaScript's `prompts[educationLevel] || prompts.high_school`
can evaluate to: one of the table's own string entries, or — for a key that
names an inherited `Object.prototype` member — that inherited member, a
truthy function or object that is never equal to any prompt string
(modelled symbolically by the name of the accessed member). -/
inductive PromptResult where
  | str : String → PromptResult
  | protoMember : String → PromptResult
deriving Repr, DecidableEq

/-- The own property names of `Object.prototype` (ECMAScript standard set,
including the legacy accessor methods and the `__proto__` accessor). An
object literal such as the `prompts` record inherits all of them, and each
is a function or object — truthy, so the `||` fallback does not engage. -/
def objectProtoKeys : List String :=
  ["constructor", "hasOwnProperty", "isPrototypeOf", "propertyIsEnumerable",
   "toLocaleString", "toString", "valueOf", "__defineGetter__",
   "__defineSetter__", "__lookupGetter__", "__lookupSetter__", "__proto__"]

/-- Model of `getEducationPrompt` (identical in `OpenAIService` and
`VertexAIService`): `prompts[educationLevel] || prompts.high_school`. A key
among the record's own entries yields that entry (every entry is a nonempty
string, hence truthy); any other key resolves through the prototype chain,
so a key naming an `Object.prototype` member yields that inherited truthy
member and only the remaining keys fall back to `high_school`. -/
def getEducationPrompt (educationLevel : String) : PromptResult :=
  match educationPrompts.lookup educationLevel with
  | some p => .str p
  | none =>
    if educationLevel ∈ objectProtoKeys then .protoMember educationLevel
    else .str promptHighSchool

/-- C10 (amended): a key inside the fixed five-element set selects that
key's entry; a key outside the set that does not name an inherited
`Object.prototype` member selects the `high_school` entry; but a key naming
an `Object.prototype` member (such as "toString") selects that inherited
truthy function/object instead of the `high_school` fallback. -/
theorem getEducationPrompt_spec (k : String) :
    (k ∉ ["elementary", "middle", "high_school", "college", "competitive"] →
      k ∉ objectProtoKeys →
      getEducationPrompt k = .str promptHighSchool)
    ∧ (k ∉ ["elementary", "middle", "high_school", "college", "competitive"] →
      k ∈ objectProtoKeys →
      getEducationPrompt k = .protoMember k)
    ∧ getEducationPrompt "elementary" = .str promptElementary
    ∧ getEducationPrompt "middle" = .str promptMiddle
    ∧ getEducationPrompt "high_school" = .str promptHighSchool
    ∧ getEducationPrompt "college" = .str promptCollege
    ∧ getEducationPrompt "competitive" = .str promptCompetitive := by
  have hlookup : ∀ hk : k ∉ ["elementary", "middle", "high_school", "college",
      "competitive"], educationPrompts.lookup k = none := by
    intro hk
    simp only [List.mem_cons, List.not_mem_nil, not_or, or_false] at hk
    obtain ⟨h1, h2, h3, h4, h5⟩ := hk
    have e1 : (k == "elementary") = false := beq_eq_false_iff_ne.mpr h1
    have e2 : (k == "middle") = false := beq_eq_false_iff_ne.mpr h2
    have e3 : (k == "high_school") = false := beq_eq_false_iff_ne.mpr h3
    have e4 : (k == "college") = false := beq_eq_false_iff_ne.mpr h4
    have e5 : (k == "competitive") = false := beq_eq_false_iff_ne.mpr h5
    simp [educationPrompts, List.lookup, e1, e2, e3, e4, e5]
  refine ⟨?_, ?_, rfl, rfl, rfl, rfl, rfl⟩
  · intro hk hp
    simp [getEducationPrompt, hlookup hk, hp]
  · intro hk hp
    simp [getEducationPrompt, hlookup hk, hp]

/-- Witness for C10 at the plain unknown key "bogus", the prototype-member
key "valueOf", and the known key "college". -/
theorem getEducationPrompt_spec_witness :
    getEducationPrompt "bogus" = .str promptHighSchool
      ∧ getEducationPrompt "valueOf" = .protoMember "valueOf"
      ∧ getEducationPrompt "college" = .str promptCollege :=
  ⟨(getEducationPrompt_spec "bogus").1 (by decide) (by decide),
    (getEducationPrompt_spec "valueOf").2.1 (by decide) (by decide),
    (getEducationPrompt_spec "college").2.2.2.2.2.1⟩

/-- Counterexample to C10 as stated: for the out-of-set key "toString" the
selected value is the inherited `Object.prototype.toString` — a truthy
function — and not the `high_school` entry of the lookup table. -/
theorem getEducationPrompt_proto_counterexample :
    getEducationPrompt "toString" = .protoMember "toString"
    ∧ getEducationPrompt "toString" ≠ .str promptHighSchool :=
  ⟨rfl, by decide⟩

/-! AI provider selection.

Source: `getAIProvider` (src/config/ai.config.ts, lines 50-69) and the
`getAIService` factory switch (src/services/ai.service.ts). The environment
variable `AI_PROVIDER` is modelled as an `Option String` parameter (`none` =
unset).
-/

/-- The `AIProvider` enum of src/config/ai.config.ts. -/
inductive AIProvider where
  | VERTEX_AI
  | GOOGLE_API_KEY
  | OPENAI
  | OPENROUTER
deriving DecidableEq, Repr

/-- String tag of each enum member, as in the TypeScript enum declaration. -/
def AIProvider.tag : AIProvider → List Char
  | .VERTEX_AI => "vertex-ai".toList
  | .GOOGLE_API_KEY => "google-api-key".toList
  | .OPENAI => "openai".toList
  | .OPENROUTER => "openrouter".toList

/-- Model of `toLowerCase` on the character-list embedding. -/
def jsToLower (cs : List Char) : List Char := cs.map Char.toLower

/-- Decode a lowercased tag against the `validProviders` list (the
`validProviders.includes(provider)` test together with the
`provider as AIProvider` cast). -/
def parseProviderTag (s : List Char) : Option AIProvider :=
  if s = "vertex-ai".toList then some .VERTEX_AI
  else if s = "google-api-key".toList then some .GOOGLE_API_KEY
  else if s = "openai".toList then some .OPENAI
  else if s = "openrouter".toList then some .OPENROUTER
  else none

/-- Model of `getAIProvider`: lowercase `process.env.AI_PROVIDER`; if the
variable is unset, empty, or not one of the four valid tags, log a warning
(the returned `Bool`) and fall back to `AIProvider.GOOGLE_API_KEY`; it never
throws (the model is a total function). An empty string is JavaScript-falsy
and is covered by `parseProviderTag [] = none`. -/
def getAIProvider (env : Option (List Char)) : AIProvider × Bool :=
  match env with
  | none => (.GOOGLE_API_KEY, true)
  | some v =>
    match parseProviderTag (jsToLower v) with
    | some p => (p, false)
    | none => (.GOOGLE_API_KEY, true)

/-- The four adapter classes the factory can construct. -/
inductive AdapterVariant where
  | vertexAI
  | googleGemini
  | openAI
  | openRouter
deriving DecidableEq, Repr

/-- Model of the `getAIService` factory switch (src/services/ai.service.ts):
which adapter is constructed for each provider value. Credential checking at
construction is outside this claim. -/
def selectAdapter : AIProvider → AdapterVariant
  | .VERTEX_AI => .vertexAI
  | .GOOGLE_API_KEY => .googleGemini
  | .OPENAI => .openAI
  | .OPENROUTER => .openRouter

/-- C9: an unset, empty, or invalid `AI_PROVIDER` yields a warning and the
Google-API-key adapter (no throw); a valid tag (case-insensitively) yields
the corresponding enum member without a warning, and the factory maps each
member to its adapter variant. -/
theorem getAIProvider_spec (env : Option (List Char)) :
    ((env = none ∨ ∃ v, env = some v ∧ parseProviderTag (jsToLower v) = none) →
      getAIProvider env = (AIProvider.GOOGLE_API_KEY, true)
        ∧ selectAdapter (getAIProvider env).1 = AdapterVariant.googleGemini)
    ∧ (∀ v p, env = some v → parseProviderTag (jsToLower v) = some p →
        getAIProvider env = (p, false))
    ∧ selectAdapter AIProvider.VERTEX_AI = AdapterVariant.vertexAI
    ∧ selectAdapter AIProvider.GOOGLE_API_KEY = AdapterVariant.googleGemini
    ∧ selectAdapter AIProvider.OPENAI = AdapterVariant.openAI
    ∧ selectAdapter AIProvider.OPENROUTER = AdapterVariant.openRouter := by
  refine ⟨?_, ?_, rfl, rfl, rfl, rfl⟩
  · rintro (rfl | ⟨v, rfl, hv⟩)
    · exact ⟨rfl, rfl⟩
    · simp [getAIProvider, selectAdapter, hv]
  · rintro v p rfl hp
    simp [getAIProvider, hp]

/-- Witness for C9: the invalid tag "bogus" falls back to the Google-API-key
variant with a warning; the mixed-case tag "OpenAI" selects the OpenAI
variant. -/
theorem getAIProvider_spec_witness :
    getAIProvider (some "bogus".toList) = (AIProvider.GOOGLE_API_KEY, true)
      ∧ getAIProvider (some "OpenAI".toList) = (AIProvider.OPENAI, false) :=
  ⟨((getAIProvider_spec (some "bogus".toList)).1
      (Or.inr ⟨"bogus".toList, rfl, by decide⟩)).1,
    (getAIProvider_spec (some "OpenAI".toList)).2.1 "OpenAI".toList
      AIProvider.OPENAI rfl (by decide)⟩

/-! Daily rate limiting.

Source: src/utils/vertex-ai-credentials.ts (rate-limit section):
`DAILY_LIMITS`, `getStartOfTodayUTC`, `checkStudyModuleDailyLimit`,
`checkAICardsDailyLimit`. The Prisma store is modelled as explicit row lists
and the current moment as a millisecond timestamp parameter.
-/

/-- Shape of the `DAILY_LIMITS` constant object. -/
structure DailyLimits where
  STUDY_MODULES : Nat
  AI_CARDS : Nat

/-- The `DAILY_LIMITS` constant: 3 study modules and 30 AI cards per day. -/
def DAILY_LIMITS : DailyLimits := { STUDY_MODULES := 3, AI_CARDS := 30 }

/-- Milliseconds per UTC day. -/
def msPerDay : Nat := 86400000

/-- Model of `getStartOfTodayUTC`: `Date.UTC(getUTCFullYear(now),
getUTCMonth(now), getUTCDate(now), 0, 0, 0, 0)` truncates the current moment
to the start of its UTC calendar day; over nonnegative epoch-millisecond
timestamps this equals flooring to a multiple of 86,400,000 ms, since Unix
time counts every UTC day as exactly 86,400,000 ms. -/
def getStartOfTodayUTC (now : Nat) : Nat := now / msPerDay * msPerDay

/-- A `study_modules` row (fields used by the rate limiter and routes). -/
structure StudyModuleRow where
  id : String
  userId : String
  createdAt : Nat
  isAIGenerated : Bool

/-- A `flashcards` row (fields used by the rate limiter and routes). -/
structure FlashcardRow where
  userId : String
  createdAt : Nat
  isAIGenerated : Bool
  moduleId : Option String

/-- The relational store, restricted to the two tables the rate limiter
queries. -/
structure DB where
  studyModules : List StudyModuleRow
  flashcards : List FlashcardRow

/-- The `prisma.studyModule.count` query of `checkStudyModuleDailyLimit`:
this user's modules created at or after the start of the current UTC day. -/
def countStudyModulesToday (db : DB) (userId : String) (now : Nat) : Nat :=
  (db.studyModules.filter
    (fun r => r.userId == userId && decide (getStartOfTodayUTC now ≤ r.createdAt))).length

/-- The `prisma.flashcard.count` filter of `checkAICardsDailyLimit`: this
user's cards created today that are marked AI-generated or belong to an
AI-generated module. -/
def aiCardFilter (db : DB) (userId : String) (now : Nat) (r : FlashcardRow) : Bool :=
  r.userId == userId && decide (getStartOfTodayUTC now ≤ r.createdAt) &&
    (r.isAIGenerated ||
      db.studyModules.any (fun m => decide (r.moduleId = some m.id) && m.isAIGenerated))

/-- The `prisma.flashcard.count` query of `checkAICardsDailyLimit`. -/
def countAICardsToday (db : DB) (userId : String) (now : Nat) : Nat :=
  (db.flashcards.filter (aiCardFilter db userId now)).length

/-- Return shape of `checkStudyModuleDailyLimit`. -/
structure LimitCheckResult where
  allowed : Bool
  currentCount : Nat
  limit : Nat
  remaining : Nat
deriving Repr, DecidableEq

/-- Model of `checkStudyModuleDailyLimit`. -/
def checkStudyModuleDailyLimit (db : DB) (userId : String) (now : Nat) :
    LimitCheckResult :=
  let count := countStudyModulesToday db userId now
  let limit := DAILY_LIMITS.STUDY_MODULES
  { allowed := decide (count < limit)
    currentCount := count
    limit := limit
    remaining := max 0 (limit - count) }

/-- Return shape of `checkAICardsDailyLimit`. -/
structure AICardsCheckResult where
  allowed : Bool
  currentCount : Nat
  limit : Nat
  remaining : Nat
  requestedCount : Nat
deriving Repr, DecidableEq

/-- Model of `checkAICardsDailyLimit`. -/
def checkAICardsDailyLimit (db : DB) (userId : String) (now : Nat)
    (requestedCount : Nat) : AICardsCheckResult :=
  let count := countAICardsToday db userId now
  let limit := DAILY_LIMITS.AI_CARDS
  let newTotal := count + requestedCount
  { allowed := decide (newTotal ≤ limit)
    currentCount := count
    limit := limit
    remaining := max 0 (limit - count)
    requestedCount := requestedCount }

/-- C1: `checkStudyModuleDailyLimit` denies exactly when today's module
count is at least 3; `checkAICardsDailyLimit` denies exactly when today's
AI-card count plus the requested amount exceeds 30; the results carry
`limit = 3` and `limit = 30` respectively, and
`remaining = max 0 (limit - currentCount)` over the integers. -/
theorem dailyLimit_checks_spec (db : DB) (userId : String) (now : Nat) (req : Nat) :
    ((checkStudyModuleDailyLimit db userId now).allowed = false
        ↔ 3 ≤ countStudyModulesToday db userId now)
    ∧ (checkStudyModuleDailyLimit db userId now).currentCount
        = countStudyModulesToday db userId now
    ∧ (checkStudyModuleDailyLimit db userId now).limit = 3
    ∧ ((checkStudyModuleDailyLimit db userId now).remaining : Int)
        = max 0 (3 - (countStudyModulesToday db userId now : Int))
    ∧ ((checkAICardsDailyLimit db userId now req).allowed = false
        ↔ 30 < countAICardsToday db userId now + req)
    ∧ (checkAICardsDailyLimit db userId now req).currentCount
        = countAICardsToday db userId now
    ∧ (checkAICardsDailyLimit db userId now req).limit = 30
    ∧ ((checkAICardsDailyLimit db userId now req).remaining : Int)
        = max 0 (30 - (countAICardsToday db userId now : Int)) := by
  refine ⟨?_, rfl, rfl, ?_, ?_, rfl, rfl, ?_⟩
  · simp only [checkStudyModuleDailyLimit, DAILY_LIMITS, decide_eq_false_iff_not]
    omega
  · simp only [checkStudyModuleDailyLimit, DAILY_LIMITS]
    omega
  · simp only [checkAICardsDailyLimit, DAILY_LIMITS, decide_eq_false_iff_not]
    omega
  · simp only [checkAICardsDailyLimit, DAILY_LIMITS]
    omega

/-- C8 (amended): both daily counts include exactly the rows with
`createdAt ≥ getStartOfTodayUTC now`; the window boundary at 23:59:59 UTC of
day `d` is the start of day `d`, while at 00:00:01 UTC of day `d + 1` it is
the start of day `d + 1`, for every caller (the computation uses only the
UTC timestamp, so it is timezone-independent). Consequently, over data whose
rows were all created by 23:59:59, both counters computed just after the
next UTC midnight are 0 — they restart from zero — and they differ from the
earlier counters whenever those were nonzero. -/
theorem dailyLimit_utc_reset (db : DB) (userId : String) (d : Nat)
    (hm : ∀ r ∈ db.studyModules, r.createdAt ≤ d * msPerDay + 86399000)
    (hf : ∀ r ∈ db.flashcards, r.createdAt ≤ d * msPerDay + 86399000) :
    getStartOfTodayUTC (d * msPerDay + 86399000) = d * msPerDay
    ∧ getStartOfTodayUTC ((d + 1) * msPerDay + 1000) = (d + 1) * msPerDay
    ∧ countStudyModulesToday db userId ((d + 1) * msPerDay + 1000) = 0
    ∧ countAICardsToday db userId ((d + 1) * msPerDay + 1000) = 0
    ∧ (0 < countStudyModulesToday db userId (d * msPerDay + 86399000) →
        countStudyModulesToday db userId (d * msPerDay + 86399000)
          ≠ countStudyModulesToday db userId ((d + 1) * msPerDay + 1000))
    ∧ (0 < countAICardsToday db userId (d * msPerDay + 86399000) →
        countAICardsToday db userId (d * msPerDay + 86399000)
          ≠ countAICardsToday db userId ((d + 1) * msPerDay + 1000)) := by
  have hstart2 : getStartOfTodayUTC ((d + 1) * msPerDay + 1000) = (d + 1) * msPerDay := by
    simp only [getStartOfTodayUTC, msPerDay]
    omega
  have hzero_m : countStudyModulesToday db userId ((d + 1) * msPerDay + 1000) = 0 := by
    unfold countStudyModulesToday
    rw [List.length_eq_zero, List.filter_eq_nil_iff]
    intro r hr
    have := hm r hr
    simp only [hstart2, Bool.and_eq_true, decide_eq_true_eq, not_and]
    intro _
    simp only [msPerDay] at this ⊢
    omega
  have hzero_f : countAICardsToday db userId ((d + 1) * msPerDay + 1000) = 0 := by
    unfold countAICardsToday
    rw [List.length_eq_zero, List.filter_eq_nil_iff]
    intro r hr
    have := hf r hr
    simp only [aiCardFilter, hstart2, Bool.and_eq_true, decide_eq_true_eq, not_and]
    intro h1
    exfalso
    simp only [msPerDay] at this h1
    omega
  refine ⟨?_, hstart2, hzero_m, hzero_f, ?_, ?_⟩
  · simp only [getStartOfTodayUTC, msPerDay]
    omega
  · intro hpos
    omega
  · intro hpos
    omega

/-- Counterexample to C8 as stated: over an empty store (identical data at
both instants) the counters computed at 23:59:59 UTC of day 3 and at
00:00:01 UTC of day 4 are equal (both 0), so the two counters do not
always differ. -/
theorem dailyLimit_utc_reset_counterexample :
    countStudyModulesToday ⟨[], []⟩ "u" (3 * msPerDay + 86399000)
      = countStudyModulesToday ⟨[], []⟩ "u" (4 * msPerDay + 1000)
    ∧ countAICardsToday ⟨[], []⟩ "u" (3 * msPerDay + 86399000)
      = countAICardsToday ⟨[], []⟩ "u" (4 * msPerDay + 1000) :=
  ⟨by decide, by decide⟩

/-- A store with one AI study module and one AI flashcard, both created at
12:00 UTC of day 5. -/
def dbDayFive : DB :=
  { studyModules := [{ id := "m1", userId := "u", createdAt := 5 * msPerDay + 43200000,
                       isAIGenerated := true }]
    flashcards := [{ userId := "u", createdAt := 5 * msPerDay + 43200000,
                     isAIGenerated := true, moduleId := some "m1" }] }

/-- Witness for C8: over `dbDayFive`, the two counters are 1 at 23:59:59 UTC
of day 5 and 0 at 00:00:01 UTC of day 6. -/
theorem dailyLimit_utc_reset_witness :
    countStudyModulesToday dbDayFive "u" ((5 + 1) * msPerDay + 1000) = 0
      ∧ countAICardsToday dbDayFive "u" ((5 + 1) * msPerDay + 1000) = 0
      ∧ countStudyModulesToday dbDayFive "u" (5 * msPerDay + 86399000) = 1
      ∧ countAICardsToday dbDayFive "u" (5 * msPerDay + 86399000) = 1 :=
  ⟨(dailyLimit_utc_reset dbDayFive "u" 5 (by decide) (by decide)).2.2.1,
    (dailyLimit_utc_reset dbDayFive "u" 5 (by decide) (by decide)).2.2.2.1,
    by decide, by decide⟩

/-! AI flashcard route handlers.

Source: POST /api/flashcards-ai/generate (src/routes/flashcards-ai.ts, lines
17-93) and POST /api/flashcards-ai/generate-from-topic (lines 153-235). Both
persist each generated card with
`prisma.flashcard.create({ data: { userId, question, answer, subject,
difficultyLevel, educationLevel } })` — no `isAIGenerated`, no `moduleId`,
and no call to either daily-limit check anywhere in the handler.
-/

/-- Modelled from the spec: the Prisma schema file for the `flashcards`
table is missing from the repository snapshot (only migrations are present),
so the column defaults are taken from the spec's data model — a create that
omits `isAIGenerated` stores `false`, and omitting `moduleId` stores NULL.
The created row mirrors the `prisma.flashcard.create` data of the two
AI-generation handlers, which set neither field. -/
def generateHandlerRow (userId : String) (createdAt : Nat) : FlashcardRow :=
  { userId := userId, createdAt := createdAt, isAIGenerated := false,
    moduleId := none }

/-- C2: rows persisted by POST /api/flashcards-ai/generate and
POST /api/flashcards-ai/generate-from-topic carry `isAIGenerated = false` and
no `moduleId`, so appending any number of them — any creator, any creation
times, with no precondition on the store (the handlers never consult a
daily-limit check) — leaves every user's `checkAICardsDailyLimit` result,
including its counted total, unchanged. -/
theorem generateHandler_rows_not_counted (db : DB) (creator : String)
    (times : List Nat) (userId : String) (now : Nat) (req : Nat) :
    (∀ t, (generateHandlerRow creator t).isAIGenerated = false
        ∧ (generateHandlerRow creator t).moduleId = none)
    ∧ checkAICardsDailyLimit
        { db with flashcards := db.flashcards ++ times.map (generateHandlerRow creator) }
        userId now req
      = checkAICardsDailyLimit db userId now req := by
  refine ⟨fun t => ⟨rfl, rfl⟩, ?_⟩
  have hsame : aiCardFilter
      { db with flashcards := db.flashcards ++ times.map (generateHandlerRow creator) }
      userId now = aiCardFilter db userId now := by
    funext r
    simp [aiCardFilter]
  have hcount : countAICardsToday
      { db with flashcards := db.flashcards ++ times.map (generateHandlerRow creator) }
      userId now = countAICardsToday db userId now := by
    unfold countAICardsToday
    rw [show ({ db with
          flashcards := db.flashcards ++ times.map (generateHandlerRow creator) } : DB).flashcards
        = db.flashcards ++ times.map (generateHandlerRow creator) from rfl]
    rw [hsame, List.filter_append, List.length_append, List.filter_map]
    have hnil : List.filter (aiCardFilter db userId now ∘ generateHandlerRow creator) times
        = [] := by
      rw [List.filter_eq_nil_iff]
      intro t _
      simp [Function.comp, aiCardFilter, generateHandlerRow]
    rw [hnil]
    simp
  unfold checkAICardsDailyLimit
  rw [hcount]

/-! Flashcard generation and normalization.

Source: `OpenAIService.generateFlashcards` (src/services/openai.service.ts,
lines 105-164; `VertexAIService.generateFlashcards` is the same logic). The
provider HTTP call (`makeRequest` / `model.invoke`) is external and is
modelled as an `Option (List Char)` parameter: `none` means the call threw,
`some text` is the response body. The `try/catch` turns any of the inner
failures (provider error, `JSON.parse` failure, non-array result) into a
single thrown `GenerationError`, modelled as `Except.error ()`.
-/

/-- JavaScript truthiness of a JSON value (`undefined` is handled separately
as `Option.none`): `null`, `false`, `0`, and the empty string are falsy. -/
def jsTruthy : Json → Bool
  | .null => false
  | .bool b => b
  | .num n => decide (n ≠ 0)
  | .str s => !s.isEmpty
  | .arr _ => true
  | .obj _ => true

/-- JavaScript property access `value[key]` on a non-null value: a lookup on
objects, `undefined` (`none`) on the other non-null values (numbers,
strings, booleans, arrays — these wrap and yield `undefined` for the card
keys). Access on `null` is different: it throws a TypeError, modelled
separately by `cardAccessThrows` in `generateFlashcards`. -/
def getProp (k : List Char) : Json → Option Json
  | .obj kvs => kvs.lookup k
  | _ => none

/-- Whether the `.map` callback of `generateFlashcards` throws on a parsed
array element: JavaScript property access on `null` throws a TypeError (and
`null` is the only JSON value on which it does; `undefined` cannot occur in
`JSON.parse` output). -/
def cardAccessThrows : Json → Bool
  | .null => true
  | _ => false

/-- JavaScript `v || d` for a possibly-undefined property value `v`. -/
def jsOr (v : Option Json) (d : Json) : Json :=
  match v with
  | some x => if jsTruthy x then x else d
  | none => d

/-- A flashcard after the adapter's normalization (`flashcards.map(...)`):
four always-present fields plus `options`, which is either the provider's
truthy value (`card.options || undefined` keeps it) or omitted. -/
structure NormCard where
  question : Json
  answer : Json
  questionType : Json
  difficultyLevel : Json
  options : Option Json
deriving Repr

/-- The per-card normalization of `generateFlashcards` — the `.map` callback
on an element it does not throw on (every non-`null` element):
`question: card.question || ''`, `answer: card.answer || ''`,
`questionType: card.questionType || 'short_answer'`,
`difficultyLevel: card.difficultyLevel || difficultyLevel` (the request's
difficulty), `options: card.options || undefined`. -/
def normalizeCard (difficultyLevel : List Char) (card : Json) : NormCard :=
  { question := jsOr (getProp "question".toList card) (Json.str [])
    answer := jsOr (getProp "answer".toList card) (Json.str [])
    questionType := jsOr (getProp "questionType".toList card)
      (Json.str "short_answer".toList)
    difficultyLevel := jsOr (getProp "difficultyLevel".toList card)
      (Json.str difficultyLevel)
    options :=
      match getProp "options".toList card with
      | some v => if jsTruthy v then some v else none
      | none => none }

/-- Model of `generateFlashcards`: on provider failure, unparseable JSON, or
a parsed value that is not an array, throw a `GenerationError`; if any array
element is `null`, the map callback's first property access on it throws a
TypeError, which the same try/catch turns into a `GenerationError` (the
partial map result is discarded when the exception propagates, so guarding
the whole array before mapping is extensionally faithful); otherwise
normalize every element of the array. -/
def generateFlashcards (difficultyLevel : List Char)
    (providerResponse : Option (List Char)) : Except Unit (List NormCard) :=
  match providerResponse with
  | none => .error ()
  | some text =>
    match extractJSON text with
    | none => .error ()
    | some (Json.arr cards) =>
      if cards.any cardAccessThrows then .error ()
      else .ok (cards.map (normalizeCard difficultyLevel))
    | some _ => .error ()

/-- C6 (amended): `generateFlashcards` succeeds exactly when the provider
call succeeded, its response parses (after fence stripping) to a JSON array,
and no array element is `null`; every other case — provider error,
unparseable JSON, non-array value, or a `null` element whose property
access throws a TypeError inside the map — is a `GenerationError`. On
success each card is normalized: a missing `question` or `answer` becomes
the empty string, a missing `questionType` becomes `short_answer`, a missing
`difficultyLevel` becomes the request's difficulty level, and `options` is
passed through unchanged (when truthy) or omitted. -/
theorem generateFlashcards_spec (dl : List Char) (resp : Option (List Char)) :
    ((∃ cards, generateFlashcards dl resp = .ok cards)
        ↔ ∃ t arr, resp = some t ∧ extractJSON t = some (Json.arr arr)
            ∧ arr.any cardAccessThrows = false)
    ∧ (∀ t arr, resp = some t → extractJSON t = some (Json.arr arr) →
        arr.any cardAccessThrows = false →
        generateFlashcards dl resp = .ok (arr.map (normalizeCard dl)))
    ∧ (∀ card, getProp "question".toList card = none →
        (normalizeCard dl card).question = Json.str [])
    ∧ (∀ card, getProp "answer".toList card = none →
        (normalizeCard dl card).answer = Json.str [])
    ∧ (∀ card, getProp "questionType".toList card = none →
        (normalizeCard dl card).questionType = Json.str "short_answer".toList)
    ∧ (∀ card, getProp "difficultyLevel".toList card = none →
        (normalizeCard dl card).difficultyLevel = Json.str dl)
    ∧ (∀ card, getProp "options".toList card = none →
        (normalizeCard dl card).options = none) := by
  refine ⟨⟨?_, ?_⟩, ?_, ?_, ?_, ?_, ?_, ?_⟩
  · rintro ⟨cards, hc⟩
    unfold generateFlashcards at hc
    split at hc
    · exact Except.noConfusion hc
    next text =>
      split at hc
      · exact Except.noConfusion hc
      next arr harr =>
        split at hc
        · exact Except.noConfusion hc
        next hthrow =>
          rw [Bool.not_eq_true] at hthrow
          exact ⟨text, arr, rfl, harr, hthrow⟩
      · exact Except.noConfusion hc
  · rintro ⟨t, arr, rfl, harr, hany⟩
    exact ⟨arr.map (normalizeCard dl), by simp [generateFlashcards, harr, hany]⟩
  · rintro t arr rfl harr hany
    simp [generateFlashcards, harr, hany]
  · intro card h
    simp at h
    simp [normalizeCard, jsOr, h]
  · intro card h
    simp at h
    simp [normalizeCard, jsOr, h]
  · intro card h
    simp at h
    simp [normalizeCard, jsOr, h]
  · intro card h
    simp at h
    simp [normalizeCard, jsOr, h]
  · intro card h
    simp at h
    simp [normalizeCard, h]

/-- Witness for C6: the response `[{}]` yields a single card whose defaults
are all filled in. -/
theorem generateFlashcards_spec_witness :
    generateFlashcards "intermediate".toList (some "[\x7b\x7d]".toList)
      = .ok [normalizeCard "intermediate".toList (Json.obj [])]
    ∧ (normalizeCard "intermediate".toList (Json.obj [])).question = Json.str []
    ∧ (normalizeCard "intermediate".toList (Json.obj [])).answer = Json.str []
    ∧ (normalizeCard "intermediate".toList (Json.obj [])).questionType
        = Json.str "short_answer".toList
    ∧ (normalizeCard "intermediate".toList (Json.obj [])).difficultyLevel
        = Json.str "intermediate".toList
    ∧ (normalizeCard "intermediate".toList (Json.obj [])).options = none :=
  ⟨(generateFlashcards_spec "intermediate".toList
      (some "[\x7b\x7d]".toList)).2.1 "[\x7b\x7d]".toList [Json.obj []] rfl (by rfl)
      (by rfl),
   (generateFlashcards_spec "intermediate".toList
      (some "[\x7b\x7d]".toList)).2.2.1 (Json.obj []) rfl,
   (generateFlashcards_spec "intermediate".toList
      (some "[\x7b\x7d]".toList)).2.2.2.1 (Json.obj []) rfl,
   (generateFlashcards_spec "intermediate".toList
      (some "[\x7b\x7d]".toList)).2.2.2.2.1 (Json.obj []) rfl,
   (generateFlashcards_spec "intermediate".toList
      (some "[\x7b\x7d]".toList)).2.2.2.2.2.1 (Json.obj []) rfl,
   (generateFlashcards_spec "intermediate".toList
      (some "[\x7b\x7d]".toList)).2.2.2.2.2.2 (Json.obj []) rfl⟩

/-- Counterexample to C6 as stated: the response `[null]` is syntactically
valid JSON and parses to an array, yet `generateFlashcards` fails with a
`GenerationError`, because the map callback's property access on the `null`
element throws a TypeError that the surrounding try/catch rethrows — a
failure mode beyond "provider error, invalid JSON, or non-array". -/
theorem generateFlashcards_null_counterexample :
    extractJSON "[null]".toList = some (Json.arr [Json.null])
    ∧ generateFlashcards "intermediate".toList (some "[null]".toList)
        = Except.error () :=
  ⟨rfl, rfl⟩

/-- C7 (amended): normalization passes `options` through from the raw
provider card independently of `questionType`: every card of a successful
`generateFlashcards` result is the normalization of some raw card, and its
`options` is either absent or exactly a truthy `options` value of that raw
card — so a card (of any question type) never carries an `options` field it
was not given. No biconditional with `questionType = multiple_choice`, and
no length-4 constraint, is enforced by the code. -/
theorem normalizeCard_options_passthrough (dl : List Char)
    (resp : Option (List Char)) (cards : List NormCard)
    (h : generateFlashcards dl resp = .ok cards) :
    ∀ c ∈ cards, ∃ raw, c = normalizeCard dl raw
      ∧ (c.options = none
          ∨ ∃ v, getProp "options".toList raw = some v ∧ jsTruthy v = true
              ∧ c.options = some v) := by
  intro c hc
  unfold generateFlashcards at h
  split at h
  · exact Except.noConfusion h
  next text =>
    split at h
    · exact Except.noConfusion h
    next arr harr =>
      split at h
      · exact Except.noConfusion h
      rw [← Except.ok.inj h] at hc
      obtain ⟨raw, -, hraw⟩ := List.mem_map.mp hc
      refine ⟨raw, hraw.symm, ?_⟩
      subst hraw
      rcases hopt : getProp "options".toList raw with - | v
      · left
        have h' : getProp ['o', 'p', 't', 'i', 'o', 'n', 's'] raw = none := hopt
        simp [normalizeCard, h']
      · by_cases htr : jsTruthy v = true
        · right
          refine ⟨v, rfl, htr, ?_⟩
          have h' : getProp ['o', 'p', 't', 'i', 'o', 'n', 's'] raw = some v := hopt
          simp [normalizeCard, h', htr]
        · left
          have h' : getProp ['o', 'p', 't', 'i', 'o', 'n', 's'] raw = some v := hopt
          simp [normalizeCard, h', htr]
    · exact Except.noConfusion h

/-- Witness for C7: the single card normalized from `[{}]` has no
`options`. -/
theorem normalizeCard_options_passthrough_witness :
    ∃ raw, normalizeCard "basic".toList (Json.obj []) = normalizeCard "basic".toList raw
      ∧ ((normalizeCard "basic".toList (Json.obj [])).options = none
          ∨ ∃ v, getProp "options".toList raw = some v ∧ jsTruthy v = true
              ∧ (normalizeCard "basic".toList (Json.obj [])).options = some v) :=
  normalizeCard_options_passthrough "basic".toList (some "[\x7b\x7d]".toList)
    [normalizeCard "basic".toList (Json.obj [])] (by rfl)
    (normalizeCard "basic".toList (Json.obj [])) (List.mem_singleton.mpr rfl)

/-- Counterexample to C7 as stated: the provider response
`[{"questionType":"multiple_choice"}]` is accepted, and its normalized card
has `questionType = "multiple_choice"` but no `options` field — so `options`
present-with-4-elements is not equivalent to `questionType =
multiple_choice`. -/
theorem multiple_choice_without_options_counterexample :
    generateFlashcards "intermediate".toList
        (some "[\x7b\"questionType\":\"multiple_choice\"\x7d]".toList)
      = .ok [normalizeCard "intermediate".toList
          (Json.obj [("questionType".toList, Json.str "multiple_choice".toList)])]
    ∧ (normalizeCard "intermediate".toList
        (Json.obj [("questionType".toList, Json.str "multiple_choice".toList)])).questionType
        = Json.str "multiple_choice".toList
    ∧ (normalizeCard "intermediate".toList
        (Json.obj [("questionType".toList, Json.str "multiple_choice".toList)])).options
        = none :=
  ⟨rfl, rfl, rfl⟩

/-! Study-module generation orchestration.

Source: `OpenAIService.generateStudyModule` (src/services/openai.service.ts,
lines 181-288; `VertexAIService.generateStudyModule` is the same logic). The
structure-phase LLM call is external and arrives as an
`Option StudyModulePlan` (`none` = the call failed, its response did not
parse, or the parsed object lacked `title`/`topics`/`learningPlan`); the
per-topic and backfill `generateFlashcards` calls are external and arrive as
functions from call index and requested card count to an outcome
(`none` = that call threw).
-/

/-- One `learningPlan` entry of the module plan
(src/services/ai.interface.ts). -/
structure PlanEntry where
  week : Int
  topic : List Char
  description : List Char
  flashcardsCount : Nat

/-- The `StudyModulePlan` interface (src/services/ai.interface.ts). -/
structure StudyModulePlan where
  title : List Char
  description : List Char
  topics : List (List Char)
  learningPlan : List PlanEntry
  estimatedHours : Int

/-- The card-fill loop of `generateStudyModule`: iterate `learningPlan` in
order; for the entry at index `i` request
`min (entry.flashcardsCount || cardsPerTopic, totalCardsNeeded - accumulated)`
cards; break without error when that is 0 (the source's `<= 0`: the
JavaScript subtraction is negative exactly when the natural-number
subtraction is 0); a failed call (`gen i k = none`) is caught, logged, and
iteration continues with the accumulator unchanged. -/
def fillLoop (gen : Nat → Nat → Option (List NormCard))
    (cardsPerTopic totalCardsNeeded : Nat) :
    List PlanEntry → Nat → List NormCard → List NormCard
  | [], _, acc => acc
  | e :: rest, i, acc =>
    if min (if e.flashcardsCount = 0 then cardsPerTopic else e.flashcardsCount)
        (totalCardsNeeded - acc.length) = 0 then acc
    else
      match gen i (min (if e.flashcardsCount = 0 then cardsPerTopic else e.flashcardsCount)
          (totalCardsNeeded - acc.length)) with
      | some cards =>
        fillLoop gen cardsPerTopic totalCardsNeeded rest (i + 1) (acc ++ cards)
      | none => fillLoop gen cardsPerTopic totalCardsNeeded rest (i + 1) acc

/-- The backfill step of `generateStudyModule`: if fewer than
`totalCardsNeeded` cards have accumulated, one more `generateFlashcards`
call for the shortfall; its failure is also caught and only logged. -/
def backfillStep (genBackfill : Nat → Option (List NormCard))
    (totalCardsNeeded : Nat) (acc : List NormCard) : List NormCard :=
  if acc.length < totalCardsNeeded then
    match genBackfill (totalCardsNeeded - acc.length) with
    | some extra => acc ++ extra
    | none => acc
  else acc

/-- The card-fill phase and return value of `generateStudyModule`
(everything after the structure validation): compute
`cardsPerTopic = max 2 (floor (numberOfCards / topics.length))`, run the
fill loop from an empty accumulator at index 0, backfill, and return the
first `numberOfCards` accumulated cards (`allFlashcards.slice(0,
totalCardsNeeded)`). -/
def generateStudyModuleCards (gen : Nat → Nat → Option (List NormCard))
    (genBackfill : Nat → Option (List NormCard)) (plan : StudyModulePlan)
    (numberOfCards : Nat) : List NormCard :=
  let totalCardsNeeded := numberOfCards
  let cardsPerTopic := max 2 (totalCardsNeeded / plan.topics.length)
  let allFlashcards := fillLoop gen cardsPerTopic totalCardsNeeded plan.learningPlan 0 []
  (backfillStep genBackfill totalCardsNeeded allFlashcards).take totalCardsNeeded

/-- Model of `generateStudyModule`: a failed structure phase is a
`GenerationError`; with a validated plan the card-fill phase runs and the
orchestrator returns `{module: plan, flashcards}`. -/
def generateStudyModule (structurePhase : Option StudyModulePlan)
    (gen : Nat → Nat → Option (List NormCard))
    (genBackfill : Nat → Option (List NormCard)) (numberOfCards : Nat) :
    Except Unit (StudyModulePlan × List NormCard) :=
  match structurePhase with
  | none => .error ()
  | some plan => .ok (plan, generateStudyModuleCards gen genBackfill plan numberOfCards)

/-- C3: the card-fill phase requests, for the entry at the head of the
remaining plan, exactly
`min (entry.flashcardsCount if nonzero else max 2 (total / topicCount),
total - accumulated)` cards; it stops without error once that value is 0;
and the returned flashcard list is truncated to at most the requested
total. The `topicCount ≠ 0` hypothesis scopes the claim to plans with at
least one topic (with zero topics the JavaScript division yields Infinity
and the natural-number model does not apply). -/
theorem generateStudyModule_cardfill_spec (gen : Nat → Nat → Option (List NormCard))
    (genBackfill : Nat → Option (List NormCard)) (plan : StudyModulePlan)
    (total : Nat) (_htopics : plan.topics.length ≠ 0) :
    (generateStudyModuleCards gen genBackfill plan total).length ≤ total
    ∧ (∀ e rest i acc,
        (min (if e.flashcardsCount = 0 then max 2 (total / plan.topics.length)
              else e.flashcardsCount) (total - acc.length) = 0 →
          fillLoop gen (max 2 (total / plan.topics.length)) total (e :: rest) i acc
            = acc)
        ∧ (∀ c, c = min (if e.flashcardsCount = 0
              then max 2 (total / plan.topics.length) else e.flashcardsCount)
              (total - acc.length) → c ≠ 0 →
            fillLoop gen (max 2 (total / plan.topics.length)) total (e :: rest) i acc
              = (match gen i c with
                  | some cards =>
                    fillLoop gen (max 2 (total / plan.topics.length)) total rest (i + 1)
                      (acc ++ cards)
                  | none =>
                    fillLoop gen (max 2 (total / plan.topics.length)) total rest (i + 1)
                      acc))) := by
  constructor
  · simp only [generateStudyModuleCards, List.length_take]
    exact Nat.min_le_left _ _
  · intro e rest i acc
    constructor
    · intro hc
      simp only [fillLoop, if_pos hc]
    · rintro c rfl hc
      simp only [fillLoop, if_neg hc]

/-- Witness for C3 on a concrete two-topic plan with a mixed
success/failure pattern of generation calls. -/
theorem generateStudyModule_cardfill_spec_witness :
    (generateStudyModuleCards
        (fun i k => if i = 0 then none else some (List.replicate k
          (normalizeCard "intermediate".toList (Json.obj []))))
        (fun k => some (List.replicate k
          (normalizeCard "intermediate".toList (Json.obj []))))
        { title := "Photosynthesis".toList, description := "p".toList,
          topics := ["Light".toList, "Dark".toList],
          learningPlan := [⟨1, "Light".toList, "d1".toList, 5⟩,
                           ⟨2, "Dark".toList, "d2".toList, 5⟩],
          estimatedHours := 2 } 10).length ≤ 10 :=
  (generateStudyModule_cardfill_spec _ _ _ 10 (by decide)).1

/-- C4: generation failures are swallowed, not propagated. With a validated
plan, `generateStudyModule` returns `{module, flashcards}` for every pattern
of per-topic and backfill outcomes (the `gen`/`genBackfill` functions are
universally quantified, so in particular any subset of calls may fail);
a failing per-topic call leaves the accumulator unchanged and iteration
continues with the next entry; and a failing backfill call leaves the
accumulated cards as they are. -/
theorem generateStudyModule_swallows_failures (structRes : Option StudyModulePlan)
    (plan : StudyModulePlan) (gen : Nat → Nat → Option (List NormCard))
    (genBackfill : Nat → Option (List NormCard)) (total : Nat)
    (h : structRes = some plan) :
    generateStudyModule structRes gen genBackfill total
      = .ok (plan, generateStudyModuleCards gen genBackfill plan total)
    ∧ (∀ cardsPerTopic e rest i acc,
        min (if e.flashcardsCount = 0 then cardsPerTopic else e.flashcardsCount)
          (total - acc.length) ≠ 0 →
        gen i (min (if e.flashcardsCount = 0 then cardsPerTopic else e.flashcardsCount)
          (total - acc.length)) = none →
        fillLoop gen cardsPerTopic total (e :: rest) i acc
          = fillLoop gen cardsPerTopic total rest (i + 1) acc)
    ∧ (∀ acc, acc.length < total → genBackfill (total - acc.length) = none →
        backfillStep genBackfill total acc = acc) := by
  refine ⟨by rw [h]; rfl, ?_, ?_⟩
  · intro cardsPerTopic e rest i acc hne hfail
    simp only [fillLoop, if_neg hne, hfail]
  · intro acc hlt hfail
    simp only [backfillStep, if_pos hlt, hfail]

/-- Witness for C4, the spec's end-to-end scenario: a two-topic plan with
`flashcardsCount = [5, 5]` and 10 requested cards, where the first per-topic
call fails, the second succeeds with 5 cards, and the backfill succeeds with
5 cards — the orchestrator still returns the module with 10 flashcards. -/
theorem generateStudyModule_swallows_failures_witness :
    generateStudyModule
        (some { title := "Photosynthesis".toList, description := "p".toList,
                topics := ["Light".toList, "Dark".toList],
                learningPlan := [⟨1, "Light".toList, "d1".toList, 5⟩,
                                 ⟨2, "Dark".toList, "d2".toList, 5⟩],
                estimatedHours := 2 })
        (fun i k => if i = 0 then none else some (List.replicate k
          (normalizeCard "intermediate".toList (Json.obj []))))
        (fun k => some (List.replicate k
          (normalizeCard "intermediate".toList (Json.obj []))))
        10
      = .ok ({ title := "Photosynthesis".toList, description := "p".toList,
               topics := ["Light".toList, "Dark".toList],
               learningPlan := [⟨1, "Light".toList, "d1".toList, 5⟩,
                                ⟨2, "Dark".toList, "d2".toList, 5⟩],
               estimatedHours := 2 },
             generateStudyModuleCards
               (fun i k => if i = 0 then none else some (List.replicate k
                 (normalizeCard "intermediate".toList (Json.obj []))))
               (fun k => some (List.replicate k
                 (normalizeCard "intermediate".toList (Json.obj []))))
               { title := "Photosynthesis".toList, description := "p".toList,
                 topics := ["Light".toList, "Dark".toList],
                 learningPlan := [⟨1, "Light".toList, "d1".toList, 5⟩,
                                  ⟨2, "Dark".toList, "d2".toList, 5⟩],
                 estimatedHours := 2 } 10)
    ∧ (generateStudyModuleCards
        (fun i k => if i = 0 then none else some (List.replicate k
          (normalizeCard "intermediate".toList (Json.obj []))))
        (fun k => some (List.replicate k
          (normalizeCard "intermediate".toList (Json.obj []))))
        { title := "Photosynthesis".toList, description := "p".toList,
          topics := ["Light".toList, "Dark".toList],
          learningPlan := [⟨1, "Light".toList, "d1".toList, 5⟩,
                           ⟨2, "Dark".toList, "d2".toList, 5⟩],
          estimatedHours := 2 } 10).length = 10 :=
  ⟨(generateStudyModule_swallows_failures _ _ _ _ 10 rfl).1, by decide⟩
